import Mathlib

/-!
A shallow embedding of the IMDb popularity video-games scraper
(`src/main.py`, `src/scraping.py`, `src/utils.py`).

Network and browser behaviour is modelled by oracle values: each page
fetch receives a response describing either an error class that the
source catches explicitly (page-load timeout / WebDriver error), an
uncaught page-content failure, or the extracted content of a
successfully loaded page.  Pure control flow (argument processing,
truncation, batching, row assembly, dataset saving) is translated
directly from the source.  Threads append to the shared list under a
lock; the shared list is modelled by explicit state passing in
submission order, which is adequate for the order-independent
properties proved here (row counts and per-job row shapes).
-/

/-- An error class that the scraper catches explicitly around each page
load: a page-load timeout (`TimeoutException`) or any other
WebDriver/transport error (`WebDriverException`). -/
inductive PageErr where
  | timeout (msg : String)
  | wderr (msg : String)
deriving DecidableEq

/-- Result of one page-fetch function: the returned value, with an
uncaught Python exception modelled as `Except.error`, together with
whether one of the timeout/WebDriver handlers logged its warning. -/
structure Fetched (R : Type) where
  result : Except String R
  warned : Bool

/-- True exactly on `Except.error`, i.e. when the modelled Python call
raised instead of returning. -/
def exceptIsError {ε α : Type} : Except ε α → Bool
  | .error _ => true
  | .ok _ => false

/-- The value of an `Except` if it returned, `none` if it raised
(mirrors a worker thread whose `scraped_data` stays `None` when its
`run` method raised). -/
def exceptValue {ε α : Type} : Except ε α → Option α
  | .error _ => none
  | .ok a => some a

/-- Decidable equality of `Except` results, used to evaluate the model
on concrete inputs. -/
instance {e a : Type} [DecidableEq e] [DecidableEq a] : DecidableEq (Except e a) := fun x y =>
  match x, y with
  | .error u, .error v =>
      if h : u = v then .isTrue (by rw [h])
      else .isFalse (fun hc => h (Except.error.inj hc))
  | .error _, .ok _ => .isFalse (fun hc => Except.noConfusion hc)
  | .ok _, .error _ => .isFalse (fun hc => Except.noConfusion hc)
  | .ok u, .ok v =>
      if h : u = v then .isTrue (by rw [h])
      else .isFalse (fun hc => h (Except.ok.inj hc))

/-- Python truthiness of an optional string: `None` and the empty
string are falsy, every other string is truthy. -/
def optStrTruthy : Option String → Bool
  | none => false
  | some s => !s.isEmpty

/-- The fields of the Series built by `scrap_titles_page`
(scraping.py lines 336-341).  Every field is optional: the per-field
`try/except` blocks set a field to `None` when its selector fails.
`release_date` keeps the parsed date as text, and the numeric `0`
fallback of `awards`/`nominations` is kept as the text "0". -/
structure TitleData where
  title : Option String
  release_date : Option String
  countries : Option (List String)
  sites : Option (List String)
  languages : Option (List String)
  companies : Option (List String)
  top_cast : Option (List String)
  nominations : Option String
  awards : Option String
  genres : Option (List String)
  parent_c_url : Option String
  ratings_url : Option String
  images_url : Option String
deriving DecidableEq

/-- The all-`None` Series assigned by the `TimeoutException` and
`WebDriverException` handlers of `scrap_titles_page`
(scraping.py lines 323-331). -/
def nullTitleData : TitleData :=
  { title := none, release_date := none, countries := none, sites := none,
    languages := none, companies := none, top_cast := none,
    nominations := none, awards := none, genres := none,
    parent_c_url := none, ratings_url := none, images_url := none }

/-- `scraped_title_data.isna().all()` (scraping.py line 561): every
field of the Series is a missing value.  Lists (even empty ones) are
not missing values in pandas, which the `Option` encoding reflects. -/
def tdAllNone (td : TitleData) : Bool :=
  td.title.isNone && td.release_date.isNone && td.countries.isNone &&
  td.sites.isNone && td.languages.isNone && td.companies.isNone &&
  td.top_cast.isNone && td.nominations.isNone && td.awards.isNone &&
  td.genres.isNone && td.parent_c_url.isNone && td.ratings_url.isNone &&
  td.images_url.isNone

/-- Response of the environment to one title-page load.  A successful
load carries the outcome of every per-field selector extraction (the
inner `try/except` blocks of `scrap_titles_page` are abstracted into
these `Option` values). -/
inductive TitleResp where
  | err (e : PageErr)
  | ok (td : TitleData)
deriving DecidableEq

/-- The Series of `scrap_ratings_page` (scraping.py line 392). The
user-ratings dictionary maps a score 10..1 to its vote count, `none`
standing for the `np.nan` fallback. -/
structure RatingsData where
  rating : Option String
  user_ratings : Option (List (Nat × Option String))
deriving DecidableEq

/-- Response to one ratings-page load.  `checkFail` is a page whose
content makes `check_page_content` raise its plain `Exception`, which
no handler of `scrap_ratings_page` catches.  A successful load carries
the overall rating and, for each chart label `j = 0..9` (score
`10 - j`), the vote count extracted for it (`none` = the per-score
handler stored `np.nan`). -/
inductive RatingsResp where
  | err (e : PageErr)
  | checkFail (msg : String)
  | ok (rating : Option String) (userVals : List (Option String))
deriving DecidableEq

/-- The Series of `scrap_parents_control_page` (scraping.py line 432). -/
structure ParentsData where
  parental_guide : Option (List (String × Option String))
deriving DecidableEq

/-- The five advisory categories read by `scrap_parents_control_page`
(scraping.py line 412). -/
def pcElements : List String :=
  ["nudity", "violence", "profanity", "alcohol", "frightening"]

/-- Response to one parents-guide page load, with the same three cases
as `RatingsResp`; a successful load carries the advisory level found
for each of the five categories (`none` = `np.nan` fallback). -/
inductive ParentsResp where
  | err (e : PageErr)
  | checkFail (msg : String)
  | ok (vals : List (Option String))
deriving DecidableEq

/-- Response to one images-page load. -/
inductive ImagesResp where
  | err (e : PageErr)
  | checkFail (msg : String)
  | ok (poster : Option String)
deriving DecidableEq

/-- Response to the advanced-search page load. `countText` is the
title count parsed from the header text by
`re.search(r"of\s+([\d,]+)", txt)` followed by `int`; `none` means the
pattern did not match, in which case the source raises an uncaught
`AttributeError` on `.group(1)` (scraping.py line 147).  `titles` and
`rankings` are the lists collected by the two inner `try` blocks. -/
inductive AdvResp where
  | err (e : PageErr)
  | ok (countText : Option Nat) (titles : List String) (rankings : List String)
deriving DecidableEq

/-- `IMDbVideoGamesScraper.scrap_titles_page` (scraping.py lines
201-343): on a caught timeout/WebDriver error every field of the
returned Series is `None` and a warning is printed; it has no
`check_page_content` call and no uncaught raise path, so it always
returns a Series. -/
def scrap_titles_page (resp : TitleResp) : TitleData × Bool :=
  match resp with
  | .err _ => (nullTitleData, true)
  | .ok td => (td, false)

/-- `IMDbVideoGamesScraper.scrap_ratings_page` (scraping.py lines
345-394).  A `check_page_content` failure raises a plain `Exception`
that neither handler catches, so it propagates (`Except.error`). -/
def scrap_ratings_page (resp : RatingsResp) : Fetched RatingsData :=
  match resp with
  | .err _ => ⟨.ok { rating := none, user_ratings := none }, true⟩
  | .checkFail msg => ⟨.error msg, false⟩
  | .ok rating userVals =>
      ⟨.ok { rating := rating,
             user_ratings :=
               some ((List.range 10).map (fun j => (10 - j, userVals.getD j none))) },
       false⟩

/-- `IMDbVideoGamesScraper.scrap_parents_control_page` (scraping.py
lines 396-434). -/
def scrap_parents_control_page (resp : ParentsResp) : Fetched ParentsData :=
  match resp with
  | .err _ => ⟨.ok { parental_guide := none }, true⟩
  | .checkFail msg => ⟨.error msg, false⟩
  | .ok vals =>
      ⟨.ok { parental_guide :=
               some ((List.range pcElements.length).map
                 (fun j => (pcElements.getD j "", vals.getD j none))) },
       false⟩

/-- `IMDbVideoGamesScraper.scrap_images_page` (scraping.py lines
436-471). -/
def scrap_images_page (resp : ImagesResp) : Fetched (Option String) :=
  match resp with
  | .err _ => ⟨.ok none, true⟩
  | .checkFail msg => ⟨.error msg, false⟩
  | .ok poster => ⟨.ok poster, false⟩

/-- `IMDbVideoGamesScraper.scrap_adv_search_page` (scraping.py lines
108-199).  On a caught timeout/WebDriver error the collected lists are
still empty (both handlers can only trigger before any element is
collected), so the truncated result is a pair of empty lists.  On a
successful load, `n` is replaced by the advertised title count when it
is `None`, `0`, or larger than that count, and both lists are
truncated to `n` entries in the `finally` block. -/
def scrap_adv_search_page (n : Option Nat) (resp : AdvResp) :
    Fetched (List String × List String) :=
  match resp with
  | .err _ => ⟨.ok ([], []), true⟩
  | .ok countText titles rankings =>
      match countText with
      | none => ⟨.error "AttributeError: NoneType object has no attribute group", false⟩
      | some titles_len =>
          let n2 : Nat :=
            match n with
            | none => titles_len
            | some k => if k = 0 || decide (k > titles_len) then titles_len else k
          ⟨.ok (titles.take n2, rankings.take n2), false⟩

/-- One row of the collected dataset, with the fields and order of the
`row` dictionary built in `scrape_title` (scraping.py lines 598-609). -/
structure Row where
  title : Option String
  ranking : String
  release_date : Option String
  countries : Option (List String)
  sites : Option (List String)
  languages : Option (List String)
  companies : Option (List String)
  top_cast : Option (List String)
  nominations : Option String
  awards : Option String
  genres : Option (List String)
  parental_guide : Option (List (String × Option String))
  rating : Option String
  user_ratings : Option (List (Nat × Option String))
  imdb_url : String
deriving DecidableEq

/-- State of the shared data list after one `scrape_title` call,
together with the exception the call raised, if any (an exception
raised inside a worker never reaches `run_scraping`: the futures are
only waited on, never queried, so `err` is simply discarded there). -/
structure ScrapeOutcome where
  data : List Row
  err : Option String
deriving DecidableEq

/-- `IMDbVideoGamesScraper.scrape_title` (scraping.py lines 552-613).

The ratings (resp. parents-guide) thread is started only when the
corresponding URL of the scraped title data is truthy; after `join`,
`scraped_data` of a thread whose scrape raised is still `None`
(modelled by `exceptValue`).  The row dictionary subscripts
`scraped_parents_data` and `scraped_ratings_data` unconditionally, so
when either is `None` a `TypeError` is raised before the append and
the shared list is left unchanged.  The image thread only downloads a
poster file: it writes nothing into the row and its exceptions die
inside the thread, so it cannot affect the outcome and is omitted. -/
def scrape_title (titleOf : String → TitleResp) (ratingsOf : String → RatingsResp)
    (parentsOf : String → ParentsResp) (title_url : String) (ranking : String)
    (data : List Row) : ScrapeOutcome :=
  let std := (scrap_titles_page (titleOf title_url)).1
  if tdAllNone std then ⟨data, none⟩
  else
    let scraped_ratings_data : Option RatingsData :=
      match std.ratings_url with
      | some u => if !u.isEmpty then exceptValue (scrap_ratings_page (ratingsOf u)).result else none
      | none => none
    let scraped_parents_data : Option ParentsData :=
      match std.parent_c_url with
      | some u => if !u.isEmpty then exceptValue (scrap_parents_control_page (parentsOf u)).result else none
      | none => none
    match scraped_parents_data, scraped_ratings_data with
    | some p, some r =>
        ⟨data ++ [{ title := std.title, ranking := ranking,
                    release_date := std.release_date, countries := std.countries,
                    sites := std.sites, languages := std.languages,
                    companies := std.companies, top_cast := std.top_cast,
                    nominations := std.nominations, awards := std.awards,
                    genres := std.genres, parental_guide := p.parental_guide,
                    rating := r.rating, user_ratings := r.user_ratings,
                    imdb_url := title_url }], none⟩
    | _, _ => ⟨data, some "TypeError: NoneType object is not subscriptable"⟩

/-- `self.max_threads` (scraping.py line 88). -/
def max_threads : Nat := 5

/-- Python `range(0, stop, step)` for a positive step.  (The source
reaches its only use with a positive step: batching is guarded by a
non-empty title list.) -/
def pyRange (stop step : Nat) : List Nat :=
  (List.range ((stop + step - 1) / step)).map (fun i => i * step)

/-- The batch comprehension
`[l[i:i + batch_size] for i in range(0, len(l), batch_size)]`
(scraping.py lines 632-633). -/
def sliceBatches {α : Type} (l : List α) (bs : Nat) : List (List α) :=
  (pyRange l.length bs).map (fun i => (l.drop i).take bs)

/-- Whitespace characters stripped by Python `int(str)`. -/
def pyIsSpace (c : Char) : Bool :=
  c = ' ' || c = '\t' || c = '\n' || c = '\r' || c = '\x0b' || c = '\x0c'

/-- Numeric value of a digit list. -/
def digitsVal (ds : List Char) : Nat :=
  ds.foldl (fun a c => a * 10 + (c.toNat - 48)) 0

/-- Model of Python `int(str)`: optional surrounding whitespace,
optional sign, then ASCII digits. -/
def parsePyInt (s : String) : Option Int :=
  let t := ((s.data.dropWhile pyIsSpace).reverse.dropWhile pyIsSpace).reverse
  let signDigits : Int × List Char :=
    match t with
    | '-' :: ds => (-1, ds)
    | '+' :: ds => (1, ds)
    | ds => (1, ds)
  if signDigits.2.isEmpty || !(signDigits.2.all Char.isDigit) then none
  else some (signDigits.1 * Int.ofNat (digitsVal signDigits.2))

/-- `process_arguments` (main.py lines 6-49).  `sys.exit` is modelled
as `Except.error` with the printed message.  In every branch the bare
`except:` also catches the `SystemExit` raised by the inner
negative-count `sys.exit`, so a negative count exits through the
handler with the "must be an integer" message; either way the process
exits.  `bool(args[3])` on a command-line string is truthy exactly
when the string is non-empty. -/
def process_arguments (args : List String) :
    Except String (Option Int × Option String × Bool) :=
  if args.length > 4 then .error "ERROR: too many arguments"
  else if args.length = 2 then
    match parsePyInt (args.getD 1 "") with
    | none => .error "ERROR: Invalid argument. n must be an integer"
    | some n =>
        if n < 0 then .error "ERROR: Invalid argument. n must be an integer"
        else .ok (some n, none, false)
  else if args.length = 3 then
    match parsePyInt (args.getD 1 "") with
    | none => .error "ERROR: Invalid argument. n must be an integer"
    | some n =>
        if n < 0 then .error "ERROR: Invalid argument. n must be an integer"
        else .ok (some n, some (args.getD 2 ""), false)
  else if args.length = 4 then
    match parsePyInt (args.getD 1 "") with
    | none => .error "ERROR: Invalid argument. n must be an integer"
    | some n =>
        if n < 0 then .error "ERROR: Invalid argument. n must be an integer"
        else .ok (some n, some (args.getD 2 ""), !(args.getD 3 "").isEmpty)
  else .ok (none, none, false)

/-- The argument lists on which `process_arguments` calls `sys.exit`:
more than four arguments, or a 2/3/4-argument list whose count entry
does not parse as an integer or parses negative. -/
def invalid_startup_args (args : List String) : Bool :=
  decide (args.length > 4) ||
  ((args.length == 2 || args.length == 3 || args.length == 4) &&
    (match parsePyInt (args.getD 1 "") with
     | none => true
     | some n => decide (n < 0)))

/-- JSON values, for the output of `DataFrame.to_json(orient="records")`. -/
inductive JVal where
  | null
  | str (s : String)
  | num (n : Nat)
  | arr (xs : List JVal)
  | obj (kvs : List (String × JVal))

/-- An optional string as a JSON value. -/
def jOptStr : Option String → JVal
  | none => .null
  | some s => .str s

/-- An optional string list as a JSON value. -/
def jOptStrList : Option (List String) → JVal
  | none => .null
  | some l => .arr (l.map JVal.str)

/-- The user-ratings dictionary as a JSON value. -/
def jUserRatings : Option (List (Nat × Option String)) → JVal
  | none => .null
  | some l => .obj (l.map (fun p => (toString p.1, jOptStr p.2)))

/-- The parental-guide dictionary as a JSON value. -/
def jParentalGuide : Option (List (String × Option String)) → JVal
  | none => .null
  | some l => .obj (l.map (fun p => (p.1, jOptStr p.2)))

/-- The column names of the collected rows, in the insertion order of
the `row` dictionary of `scrape_title`. -/
def rowFieldNames : List String :=
  ["title", "ranking", "release_date", "countries", "sites", "languages",
   "companies", "top_cast", "nominations", "awards", "genres",
   "parental_guide", "rating", "user_ratings", "imdb_url"]

/-- One row as its ordered (column, value) pairs. -/
def rowPairs (r : Row) : List (String × JVal) :=
  [("title", jOptStr r.title), ("ranking", .str r.ranking),
   ("release_date", jOptStr r.release_date),
   ("countries", jOptStrList r.countries), ("sites", jOptStrList r.sites),
   ("languages", jOptStrList r.languages),
   ("companies", jOptStrList r.companies),
   ("top_cast", jOptStrList r.top_cast),
   ("nominations", jOptStr r.nominations), ("awards", jOptStr r.awards),
   ("genres", jOptStrList r.genres),
   ("parental_guide", jParentalGuide r.parental_guide),
   ("rating", jOptStr r.rating),
   ("user_ratings", jUserRatings r.user_ratings),
   ("imdb_url", .str r.imdb_url)]

/-- One row as the record object written by
`to_json(orient="records")`. -/
def rowToJson (r : Row) : JVal := .obj (rowPairs r)

/-- `pd.DataFrame(self.data)`: the column index is empty for an empty
row list and otherwise is the (common) key set of the row
dictionaries, in insertion order. -/
structure DataFrame where
  columns : List String
  rows : List Row

/-- Build the DataFrame from the collected rows (scraping.py line 652). -/
def mk_dataframe (rows : List Row) : DataFrame :=
  ⟨if rows.isEmpty then [] else rowFieldNames, rows⟩

/-- What `save_dataset` writes: a JSON file, a CSV file (header plus
one list of cell values per row; textual cell rendering is not
modelled), or nothing but a printed error message. -/
inductive SaveResult where
  | jsonFile (content : JVal)
  | csvFile (header : List String) (records : List (List JVal))
  | invalidTypeMessage

/-- `IMDbVideoGamesScraper.save_dataset` (scraping.py lines 496-515):
`json` or no type writes a JSON array of record objects, `csv` writes
a CSV file with the column header, anything else only prints an error
message. -/
def save_dataset (dwl_type : Option String) (df : DataFrame) : SaveResult :=
  if dwl_type = some "json" ∨ dwl_type = none then
    .jsonFile (.arr (df.rows.map rowToJson))
  else if dwl_type = some "csv" then
    .csvFile df.columns (df.rows.map (fun r => (rowPairs r).map Prod.snd))
  else .invalidTypeMessage

/-- Constructor arguments of `IMDbVideoGamesScraper` (`n` is `None` or
a non-negative count by the time `main` builds the scraper). -/
structure RunConfig where
  n : Option Nat
  dwl_type : Option String
  dwl_imgs : Bool

/-- The page responses of the environment for one run. -/
structure Env where
  adv : AdvResp
  titlePage : String → TitleResp
  ratingsPage : String → RatingsResp
  parentsPage : String → ParentsResp

/-- Final state of a completed run: the collected rows and the save
outcome. -/
structure RunResult where
  data : List Row
  saved : SaveResult

/-- `IMDbVideoGamesScraper.run_scraping` (scraping.py lines 615-659).
A non-empty title list is cut into batches of
`min(len(titles_urls), max_threads)` jobs; the batch pairs are zipped,
each batch zips URLs with rankings and submits one `scrape_title` per
job.  Exceptions inside workers are swallowed by the futures; the only
uncaught exception path is the one out of `scrap_adv_search_page`.
The worker pool interleaves the appends of one batch; they are modelled
in submission order (the lock makes each append atomic and the
properties proved here do not depend on the order). -/
def run_scraping (cfg : RunConfig) (env : Env) : Except String RunResult :=
  match (scrap_adv_search_page cfg.n env.adv).result with
  | .error e => .error e
  | .ok (titles_urls, rankings) =>
      let data : List Row :=
        if titles_urls.isEmpty then []
        else
          let batch_size := min titles_urls.length max_threads
          let title_batches := sliceBatches titles_urls batch_size
          let rankings_batches := sliceBatches rankings batch_size
          (title_batches.zip rankings_batches).foldl
            (fun d p =>
              (p.1.zip p.2).foldl
                (fun d2 j =>
                  (scrape_title env.titlePage env.ratingsPage env.parentsPage j.1 j.2 d2).data)
                d)
            []
      let df := mk_dataframe data
      .ok ⟨data, save_dataset cfg.dwl_type df⟩

/-! ## Helper lemmas -/

/-- The key list of every row object is the fixed column list. -/
lemma rowPairs_keys (r : Row) : (rowPairs r).map Prod.fst = rowFieldNames := rfl

/-- One `scrape_title` call leaves the shared list unchanged or appends
exactly one row at its end. -/
lemma scrape_title_data_eq_or_append (titleOf : String → TitleResp)
    (ratingsOf : String → RatingsResp) (parentsOf : String → ParentsResp)
    (u rk : String) (data : List Row) :
    (scrape_title titleOf ratingsOf parentsOf u rk data).data = data ∨
    ∃ r, (scrape_title titleOf ratingsOf parentsOf u rk data).data = data ++ [r] := by
  unfold scrape_title
  dsimp only
  split
  · exact Or.inl rfl
  · split
    · exact Or.inr ⟨_, rfl⟩
    · exact Or.inl rfl

/-- One `scrape_title` call grows the shared list by at most one row. -/
lemma scrape_title_length_le (titleOf : String → TitleResp)
    (ratingsOf : String → RatingsResp) (parentsOf : String → ParentsResp)
    (u rk : String) (data : List Row) :
    (scrape_title titleOf ratingsOf parentsOf u rk data).data.length ≤ data.length + 1 := by
  rcases scrape_title_data_eq_or_append titleOf ratingsOf parentsOf u rk data with h | ⟨r, h⟩ <;>
    simp [h]

/-! ## Claims -/

/-- Claim C8: for every Job (one title URL plus its rank), a single
execution of `scrape_title` appends at most one row to the shared data
list: the list is returned unchanged or with exactly one new row at
its end. -/
theorem C8_job_at_most_one_row (titleOf : String → TitleResp)
    (ratingsOf : String → RatingsResp) (parentsOf : String → ParentsResp)
    (u rk : String) (data : List Row) :
    (scrape_title titleOf ratingsOf parentsOf u rk data).data = data ∨
    ∃ r, (scrape_title titleOf ratingsOf parentsOf u rk data).data = data ++ [r] :=
  scrape_title_data_eq_or_append titleOf ratingsOf parentsOf u rk data

/-- Claim C2: a Job whose primary title-page fetch entirely fails
(every field of the scraped title data missing) makes `scrape_title`
return without appending anything and without raising. -/
theorem C2_primary_failure_zero_rows (titleOf : String → TitleResp)
    (ratingsOf : String → RatingsResp) (parentsOf : String → ParentsResp)
    (u rk : String) (data : List Row)
    (h : tdAllNone (scrap_titles_page (titleOf u)).1 = true) :
    scrape_title titleOf ratingsOf parentsOf u rk data = ⟨data, none⟩ := by
  unfold scrape_title
  simp [h]

/-- Witness for C2 at a title page that times out. -/
theorem C2_witness :
    scrape_title (fun _ => TitleResp.err (.timeout "t"))
      (fun _ => RatingsResp.err (.timeout "t"))
      (fun _ => ParentsResp.err (.timeout "t")) "u" "1" [] = ⟨[], none⟩ :=
  C2_primary_failure_zero_rows _ _ _ _ _ _ (by decide)

/-- Claim C4: every page-fetch operation catches timeout and
WebDriver/transport errors itself; on such an error it sets all of its
result fields to the null/missing value of that page (empty collected
lists for the search page, `None` fields elsewhere), logs a warning,
and returns normally.  Each fetch function consumes exactly one page
response, so no retry is possible. -/
theorem C4_fetchers_degrade_errors (e : PageErr) (n : Option Nat) :
    scrap_adv_search_page n (.err e) = ⟨.ok ([], []), true⟩ ∧
    scrap_titles_page (.err e) = (nullTitleData, true) ∧
    scrap_ratings_page (.err e) = ⟨.ok { rating := none, user_ratings := none }, true⟩ ∧
    scrap_parents_control_page (.err e) = ⟨.ok { parental_guide := none }, true⟩ ∧
    scrap_images_page (.err e) = ⟨.ok none, true⟩ :=
  ⟨rfl, rfl, rfl, rfl, rfl⟩

/-- Claim C5: `save_dataset` writes the dataset in the requested
format: type `json` (or no type) writes a JSON array holding one
record object per collected row, and type `csv` writes a CSV file
whose header row is the column list, which matches the (common) field
set of the collected rows. -/
theorem C5_save_format (dwl_type : Option String) (rows : List Row) :
    ((dwl_type = some "json" ∨ dwl_type = none) →
      save_dataset dwl_type (mk_dataframe rows) =
        .jsonFile (.arr (rows.map rowToJson)) ∧
      ∀ r ∈ rows, (rowPairs r).map Prod.fst = rowFieldNames) ∧
    (dwl_type = some "csv" →
      save_dataset dwl_type (mk_dataframe rows) =
        .csvFile (mk_dataframe rows).columns
          (rows.map (fun r => (rowPairs r).map Prod.snd)) ∧
      (rows ≠ [] → (mk_dataframe rows).columns = rowFieldNames) ∧
      ∀ r ∈ rows, (rowPairs r).map Prod.fst = rowFieldNames) := by
  constructor
  · intro h
    refine ⟨?_, fun r _ => rowPairs_keys r⟩
    unfold save_dataset
    rw [if_pos h]
    rfl
  · rintro rfl
    refine ⟨rfl, fun h => ?_, fun r _ => rowPairs_keys r⟩
    unfold mk_dataframe
    simp [h]


/-- Witness for C5: saving an empty collection as JSON and a one-row
collection as CSV. -/
theorem C5_witness :
    save_dataset (some "json") (mk_dataframe []) =
      .jsonFile (.arr ([].map rowToJson)) ∧
    ∀ r ∈ ([] : List Row), (rowPairs r).map Prod.fst = rowFieldNames :=
  (C5_save_format (some "json") []).1 (Or.inl rfl)

/-- Claim C9: whenever `process_arguments` returns a triple for a
four-element argument list, its image-download flag is `True` exactly
when the fourth element is a non-empty string, whatever its text (the
string "False" included); the flag of a returned triple is `False`
only for fewer than four arguments or an empty fourth argument. -/
theorem C9_image_flag (args : List String) (n : Option Int) (t : Option String) (f : Bool)
    (h : process_arguments args = .ok (n, t, f)) :
    (args.length = 4 → (args.getD 3 "").isEmpty = false → f = true) ∧
    (f = true → args.length = 4 ∧ (args.getD 3 "").isEmpty = false) := by
  unfold process_arguments at h
  split at h
  · simp at h
  · split at h
    next hlen2 =>
      split at h
      · simp at h
      · split at h
        · simp at h
        · simp only [Except.ok.injEq, Prod.mk.injEq] at h
          obtain ⟨rfl, rfl, rfl⟩ := h
          exact ⟨fun h4 _ => absurd h4 (by omega), fun hf => by simp at hf⟩
    next hlen2 =>
      split at h
      next hlen3 =>
        split at h
        · simp at h
        · split at h
          · simp at h
          · simp only [Except.ok.injEq, Prod.mk.injEq] at h
            obtain ⟨rfl, rfl, rfl⟩ := h
            exact ⟨fun h4 _ => absurd h4 (by omega), fun hf => by simp at hf⟩
      next hlen3 =>
        split at h
        next hlen4 =>
          split at h
          · simp at h
          · split at h
            · simp at h
            · simp only [Except.ok.injEq, Prod.mk.injEq] at h
              obtain ⟨rfl, rfl, rfl⟩ := h
              constructor
              · intro _ he
                rw [he]
                rfl
              · intro hf
                exact ⟨hlen4, by simpa using hf⟩
        next hlen4 =>
          simp only [Except.ok.injEq, Prod.mk.injEq] at h
          obtain ⟨rfl, rfl, rfl⟩ := h
          exact ⟨fun h4 _ => absurd h4 hlen4, fun hf => by simp at hf⟩

/-- Witness for C9: the fourth argument "False" still turns the
image-download flag on. -/
theorem C9_witness :
    ((["main.py", "3", "json", "False"] : List String).length = 4 →
      ((["main.py", "3", "json", "False"] : List String).getD 3 "").isEmpty = false →
      true = true) ∧
    (true = true →
      (["main.py", "3", "json", "False"] : List String).length = 4 ∧
      ((["main.py", "3", "json", "False"] : List String).getD 3 "").isEmpty = false) :=
  C9_image_flag ["main.py", "3", "json", "False"] (some 3) (some "json") true (by decide)

/-- Claim C10: for a requested file type outside json/csv,
`save_dataset` writes no file (it only prints an error message and
returns), and a run that completes still completes normally with no
dataset file produced. -/
theorem C10_invalid_type_writes_nothing (ty : String) (hj : ty ≠ "json") (hc : ty ≠ "csv")
    (df : DataFrame) (cfg : RunConfig) (env : Env) (res : RunResult)
    (hcfg : cfg.dwl_type = some ty) (hr : run_scraping cfg env = .ok res) :
    save_dataset (some ty) df = .invalidTypeMessage ∧
    res.saved = .invalidTypeMessage := by
  have hsave : ∀ d : DataFrame, save_dataset (some ty) d = .invalidTypeMessage := by
    intro d
    unfold save_dataset
    rw [if_neg (by simp [hj]), if_neg (by simp [hc])]
  refine ⟨hsave df, ?_⟩
  unfold run_scraping at hr
  split at hr
  · simp at hr
  · simp only [Except.ok.injEq] at hr
    subst hr
    simpa [hcfg] using hsave _

/-- Witness for C10 at the file type "xml". -/
theorem C10_witness :
    save_dataset (some "xml") (mk_dataframe []) = .invalidTypeMessage ∧
    (RunResult.mk []
      (save_dataset (some "xml") (mk_dataframe []))).saved = .invalidTypeMessage := by
  have h := C10_invalid_type_writes_nothing "xml" (by decide) (by decide)
    (mk_dataframe []) ⟨some 0, some "xml", false⟩
    ⟨AdvResp.err (.timeout "t"), fun _ => TitleResp.err (.timeout "t"),
     fun _ => RatingsResp.err (.timeout "t"), fun _ => ParentsResp.err (.timeout "t")⟩
    ⟨[], save_dataset (some "xml") (mk_dataframe [])⟩ rfl rfl
  exact h

/-- Recursive characterisation of the slice-based batching. -/
def sliceBatchesRec {α : Type} (bs : Nat) : Nat → List α → List (List α)
  | 0, _ => []
  | k + 1, l => l.take bs :: sliceBatchesRec bs k (l.drop bs)

/-- The slice comprehension over `range` agrees with the recursive
chunking. -/
lemma range_map_slice {α : Type} (bs : Nat) :
    ∀ (k : Nat) (l : List α),
      (List.range k).map (fun i => (l.drop (i * bs)).take bs) = sliceBatchesRec bs k l := by
  intro k
  induction k with
  | zero => intro l; simp [sliceBatchesRec]
  | succ k ih =>
      intro l
      rw [List.range_succ_eq_map, List.map_cons, List.map_map]
      refine congrArg₂ List.cons (by simp) ?_
      rw [← ih (l.drop bs)]
      refine List.map_congr_left (fun i _ => ?_)
      simp only [Function.comp_apply, List.drop_drop]
      rw [Nat.succ_mul, Nat.add_comm (i * bs) bs, Nat.add_comm bs (i * bs)]

/-- Joining the recursive chunking recovers the list when enough
chunks are taken. -/
lemma sliceBatchesRec_join {α : Type} (bs : Nat) :
    ∀ (k : Nat) (l : List α), l.length ≤ k * bs → (sliceBatchesRec bs k l).flatten = l := by
  intro k
  induction k with
  | zero =>
      intro l hl
      simp only [Nat.zero_mul, Nat.le_zero] at hl
      rw [List.eq_nil_of_length_eq_zero hl]
      rfl
  | succ k ih =>
      intro l hl
      rw [Nat.succ_mul] at hl
      simp only [sliceBatchesRec, List.flatten_cons]
      rw [ih (l.drop bs) (by simp only [List.length_drop]; omega), List.take_append_drop]

/-- Every chunk of the recursive chunking has at most `bs` elements. -/
lemma sliceBatchesRec_mem_length {α : Type} (bs : Nat) :
    ∀ (k : Nat) (l : List α), ∀ b ∈ sliceBatchesRec bs k l, b.length ≤ bs := by
  intro k
  induction k with
  | zero => intro l b hb; simp [sliceBatchesRec] at hb
  | succ k ih =>
      intro l b hb
      rcases List.mem_cons.mp hb with rfl | hb
      · exact List.length_take_le bs l
      · exact ih (l.drop bs) b hb

/-- A number is at most its ceiling multiple: `L ≤ ceil(L/bs) * bs`. -/
lemma le_ceil_mul (L bs : Nat) (hbs : 0 < bs) : L ≤ ((L + bs - 1) / bs) * bs := by
  rcases Nat.eq_zero_or_pos L with hL | hL
  · simp [hL]
  · have hq : (L + bs - 1) / bs = (L - 1) / bs + 1 := by
      have h1 : L + bs - 1 = (L - 1) + bs := by omega
      rw [h1, Nat.add_div_right _ hbs]
    rw [hq]
    have h2 : L - 1 < ((L - 1) / bs + 1) * bs := by
      rw [← Nat.div_lt_iff_lt_mul hbs]
      exact Nat.lt_succ_self _
    omega

/-- The batching of `run_scraping` in closed form. -/
lemma sliceBatches_eq_rec {α : Type} (l : List α) (bs : Nat) :
    sliceBatches l bs = sliceBatchesRec bs ((l.length + bs - 1) / bs) l := by
  unfold sliceBatches pyRange
  rw [List.map_map]
  exact range_map_slice bs _ l

/-- Claim C7: with a non-empty scraped title-URL list, `run_scraping`
cuts the list into contiguous batches of size
`min(len(titles_urls), max_threads)`; every batch holds at most
`max_threads = 5` Jobs and the concatenation of the batches in order
is the original list. -/
theorem C7_batch_partition (l : List String) (h : l ≠ []) :
    (∀ b ∈ sliceBatches l (min l.length max_threads), b.length ≤ max_threads) ∧
    (sliceBatches l (min l.length max_threads)).flatten = l := by
  have hlen : 0 < l.length := List.length_pos.mpr h
  have hbs : 0 < min l.length max_threads := by
    simp only [max_threads]
    omega
  rw [sliceBatches_eq_rec]
  constructor
  · intro b hb
    exact le_trans (sliceBatchesRec_mem_length _ _ _ b hb) (Nat.min_le_right _ _)
  · exact sliceBatchesRec_join _ _ l (le_ceil_mul l.length _ hbs)

/-- Witness for C7 on a six-element list (batch size 5). -/
theorem C7_witness :
    (∀ b ∈ sliceBatches ["a", "b", "c", "d", "e", "f"]
        (min (["a", "b", "c", "d", "e", "f"] : List String).length max_threads),
      b.length ≤ max_threads) ∧
    (sliceBatches ["a", "b", "c", "d", "e", "f"]
        (min (["a", "b", "c", "d", "e", "f"] : List String).length max_threads)).flatten =
      ["a", "b", "c", "d", "e", "f"] :=
  C7_batch_partition ["a", "b", "c", "d", "e", "f"] (by decide)

/-- Folding `scrape_title` over a job list grows the shared list by at
most one row per job. -/
lemma foldl_scrape_length (tO : String → TitleResp) (rO : String → RatingsResp)
    (pO : String → ParentsResp) (jobs : List (String × String)) :
    ∀ data : List Row,
      (jobs.foldl (fun d2 j => (scrape_title tO rO pO j.1 j.2 d2).data) data).length ≤
        data.length + jobs.length := by
  induction jobs with
  | nil => intro data; simp
  | cons j js ih =>
      intro data
      simp only [List.foldl_cons, List.length_cons]
      refine le_trans (ih _) ?_
      have := scrape_title_length_le tO rO pO j.1 j.2 data
      omega

/-- Folding the per-batch job folds over all batches grows the shared
list by at most the total number of zipped jobs. -/
lemma foldl_batches_length (tO : String → TitleResp) (rO : String → RatingsResp)
    (pO : String → ParentsResp) (bp : List (List String × List String)) :
    ∀ data : List Row,
      (bp.foldl
        (fun d p =>
          (p.1.zip p.2).foldl (fun d2 j => (scrape_title tO rO pO j.1 j.2 d2).data) d)
        data).length ≤
        data.length + (bp.map (fun p => (p.1.zip p.2).length)).sum := by
  induction bp with
  | nil => intro data; simp
  | cons p ps ih =>
      intro data
      simp only [List.foldl_cons, List.map_cons, List.sum_cons]
      refine le_trans (ih _) ?_
      have := foldl_scrape_length tO rO pO (p.1.zip p.2) data
      omega

/-- The zipped job count over paired batches is at most the total size
of the title batches. -/
lemma sum_zip_lengths_le (TB : List (List String)) :
    ∀ RB : List (List String),
      ((TB.zip RB).map (fun p => (p.1.zip p.2).length)).sum ≤
        (TB.map List.length).sum := by
  induction TB with
  | nil => intro RB; simp
  | cons t ts ih =>
      intro RB
      cases RB with
      | nil => simp
      | cons r rs =>
          simp only [List.zip_cons_cons, List.map_cons, List.sum_cons]
          have h1 : (t.zip r).length ≤ t.length := by
            rw [List.length_zip]
            exact Nat.min_le_left _ _
          have h2 := ih rs
          omega

/-- The truncated title-URL list of the search page has at most `k`
entries when the requested count is a positive `k`. -/
lemma scrap_adv_titles_le (k : Nat) (hk : 0 < k) (resp : AdvResp) (ts rs : List String)
    (h : (scrap_adv_search_page (some k) resp).result = .ok (ts, rs)) :
    ts.length ≤ k := by
  cases resp with
  | err e =>
      simp only [scrap_adv_search_page] at h
      rw [Except.ok.injEq, Prod.mk.injEq] at h
      rw [← h.1]
      simp
  | ok ct titles rankings =>
      cases ct with
      | none => simp [scrap_adv_search_page] at h
      | some L =>
          have hk0 : ¬(k = 0) := by omega
          simp only [scrap_adv_search_page] at h
          by_cases hKL : k > L
          · rw [if_pos (by simp [hk0, hKL])] at h
            rw [Except.ok.injEq, Prod.mk.injEq] at h
            rw [← h.1]
            refine le_trans (List.length_take_le _ _) ?_
            omega
          · rw [if_neg (by simp [hk0, hKL])] at h
            rw [Except.ok.injEq, Prod.mk.injEq] at h
            rw [← h.1]
            exact List.length_take_le _ _

/-- Claim C3: a run with positive requested count `k` that completes
collects at most `k` rows: the search-page scraper truncates the two
lists to at most `k` entries and each submitted Job appends at most
one row. -/
theorem C3_row_count_le_requested (cfg : RunConfig) (env : Env) (k : Nat)
    (hn : cfg.n = some k) (hk : 0 < k) (res : RunResult)
    (h : run_scraping cfg env = .ok res) :
    res.data.length ≤ k := by
  unfold run_scraping at h
  split at h
  · simp at h
  next ts rs heq =>
    rw [Except.ok.injEq] at h
    subst h
    by_cases hemp : ts.isEmpty
    · simp [hemp]
    · have hne : ts ≠ [] := by
        intro hcon
        rw [hcon] at hemp
        exact hemp rfl
      have hlen : 0 < ts.length := List.length_pos.mpr hne
      have hbs : 0 < min ts.length max_threads := by
        simp only [max_threads]
        omega
      simp only [hemp, Bool.false_eq_true, if_false]
      have h1 := foldl_batches_length env.titlePage env.ratingsPage env.parentsPage
        ((sliceBatches ts (min ts.length max_threads)).zip
          (sliceBatches rs (min ts.length max_threads))) []
      have h2 := sum_zip_lengths_le (sliceBatches ts (min ts.length max_threads))
        (sliceBatches rs (min ts.length max_threads))
      have h3 : ((sliceBatches ts (min ts.length max_threads)).map List.length).sum
          = (sliceBatches ts (min ts.length max_threads)).flatten.length :=
        (List.length_flatten _).symm
      have h4 : (sliceBatches ts (min ts.length max_threads)).flatten = ts := by
        rw [sliceBatches_eq_rec]
        exact sliceBatchesRec_join _ _ ts (le_ceil_mul ts.length _ hbs)
      have h5 : ts.length ≤ k := by
        rw [hn] at heq
        exact scrap_adv_titles_le k hk env.adv ts rs heq
      rw [h4] at h3
      simp only [List.length_nil, Nat.zero_add] at h1
      omega

/-- Witness for C3: a two-title run with requested count 2 collects at
most two rows. -/
theorem C3_witness :
    (RunResult.mk [] (save_dataset none (mk_dataframe []))).data.length ≤ 2 := by
  refine C3_row_count_le_requested ⟨some 2, none, false⟩
    ⟨AdvResp.err (.timeout "t"), fun _ => TitleResp.err (.timeout "t"),
     fun _ => RatingsResp.err (.timeout "t"), fun _ => ParentsResp.err (.timeout "t")⟩
    2 rfl (by decide) _ ?_
  rfl

/-- Claim C6 (amended): `process_arguments` exits the process exactly
when there are more than four arguments, the count argument does not
parse as an integer, or the parsed count is negative; every other
argument list yields a returned triple.  Later stages never request a
process exit themselves, but one uncaught error can still abort the
run: the only way a run terminates abnormally is a search page whose
expected-count text does not match the parsing pattern, which raises
an uncaught `AttributeError`. -/
theorem C6_exit_characterisation :
    (∀ args : List String,
      exceptIsError (process_arguments args) = invalid_startup_args args) ∧
    (∀ (cfg : RunConfig) (env : Env),
      exceptIsError (run_scraping cfg env) = true →
      ∃ ts rs, env.adv = AdvResp.ok none ts rs) := by
  constructor
  · intro args
    unfold process_arguments invalid_startup_args
    split
    next h4 => simp [exceptIsError, h4]
    next h4 =>
      split
      next h2 =>
        cases hp : parsePyInt (args.getD 1 "") with
        | none => simp [exceptIsError, h4, h2, hp]
        | some m =>
            by_cases hm : m < 0
            · simp [exceptIsError, h4, h2, hp, hm]
            · simp [exceptIsError, h4, h2, hp, hm]
      next h2 =>
        split
        next h3 =>
          cases hp : parsePyInt (args.getD 1 "") with
          | none => simp [exceptIsError, h4, h2, h3, hp]
          | some m =>
              by_cases hm : m < 0
              · simp [exceptIsError, h4, h2, h3, hp, hm]
              · simp [exceptIsError, h4, h2, h3, hp, hm]
        next h3 =>
          split
          next hl4 =>
            cases hp : parsePyInt (args.getD 1 "") with
            | none => simp [exceptIsError, h4, h2, h3, hl4, hp]
            | some m =>
                by_cases hm : m < 0
                · simp [exceptIsError, h4, h2, h3, hl4, hp, hm]
                · simp [exceptIsError, h4, h2, h3, hl4, hp, hm]
          next hl4 => simp [exceptIsError, h4, h2, h3, hl4]
  · intro cfg env h
    unfold run_scraping at h
    split at h
    next e heq =>
      cases hadv : env.adv with
      | err pe =>
          rw [hadv] at heq
          simp [scrap_adv_search_page] at heq
      | ok ct ts rs =>
          cases ct with
          | none => exact ⟨ts, rs, rfl⟩
          | some L =>
              rw [hadv] at heq
              simp [scrap_adv_search_page] at heq
    next => simp [exceptIsError] at h

/-- Counterexample to claim C6 as stated: a valid argument list makes
`process_arguments` return a triple, yet a later stage can still
terminate the process: when the search page loads but its
expected-count text does not match the parsing pattern, the raised
`AttributeError` is uncaught and aborts the run. -/
theorem C6_counterexample :
    process_arguments ["main.py", "3", "json"] = .ok (some 3, some "json", false) ∧
    run_scraping ⟨some 3, some "json", false⟩
      ⟨AdvResp.ok none [] [], fun _ => TitleResp.err (.timeout "t"),
       fun _ => RatingsResp.err (.timeout "t"), fun _ => ParentsResp.err (.timeout "t")⟩ =
      .error "AttributeError: NoneType object has no attribute group" := by
  exact ⟨by decide, rfl⟩

/-- Witness for C6 (amended) at a valid argument list and an aborting
run. -/
theorem C6_witness :
    (exceptIsError (process_arguments ["main.py", "3"]) =
      invalid_startup_args ["main.py", "3"]) ∧
    ∃ ts rs,
      (Env.mk (AdvResp.ok none ["u"] ["1"]) (fun _ => TitleResp.err (.timeout "t"))
        (fun _ => RatingsResp.err (.timeout "t"))
        (fun _ => ParentsResp.err (.timeout "t"))).adv = AdvResp.ok none ts rs :=
  ⟨C6_exit_characterisation.1 ["main.py", "3"],
   C6_exit_characterisation.2 ⟨some 3, none, false⟩ _ rfl⟩

/-- Claim C1 (amended): for a Job whose primary title-page scrape
yields at least one usable field and yields both the ratings URL and
the parental-guide URL, a timeout/WebDriver failure of the attempted
secondary fetches still results in exactly one appended row in which
only the corresponding sub-fields (`rating`, `user_ratings`,
`parental_guide`) are the missing marker and every primary field keeps
its scraped value; when the ratings URL or the parental-guide URL is
absent instead, the row construction raises and the Job contributes no
row. -/
theorem C1_attempted_secondary_failure_keeps_row (titleOf : String → TitleResp)
    (ratingsOf : String → RatingsResp) (parentsOf : String → ParentsResp)
    (title_url ranking : String) (data : List Row) (ru pu : String) (e1 e2 : PageErr)
    (hna : tdAllNone (scrap_titles_page (titleOf title_url)).1 = false)
    (hru : (scrap_titles_page (titleOf title_url)).1.ratings_url = some ru)
    (hru2 : ru.isEmpty = false)
    (hpu : (scrap_titles_page (titleOf title_url)).1.parent_c_url = some pu)
    (hpu2 : pu.isEmpty = false)
    (hre : ratingsOf ru = .err e1)
    (hpe : parentsOf pu = .err e2) :
    scrape_title titleOf ratingsOf parentsOf title_url ranking data =
      ⟨data ++ [{ title := (scrap_titles_page (titleOf title_url)).1.title,
                  ranking := ranking,
                  release_date := (scrap_titles_page (titleOf title_url)).1.release_date,
                  countries := (scrap_titles_page (titleOf title_url)).1.countries,
                  sites := (scrap_titles_page (titleOf title_url)).1.sites,
                  languages := (scrap_titles_page (titleOf title_url)).1.languages,
                  companies := (scrap_titles_page (titleOf title_url)).1.companies,
                  top_cast := (scrap_titles_page (titleOf title_url)).1.top_cast,
                  nominations := (scrap_titles_page (titleOf title_url)).1.nominations,
                  awards := (scrap_titles_page (titleOf title_url)).1.awards,
                  genres := (scrap_titles_page (titleOf title_url)).1.genres,
                  parental_guide := none, rating := none, user_ratings := none,
                  imdb_url := title_url }], none⟩ := by
  unfold scrape_title
  simp [hna, hru, hru2, hpu, hpu2, hre, hpe,
    scrap_ratings_page, scrap_parents_control_page, exceptValue]

/-- A title-page extraction with one usable field and no secondary
URLs at all. -/
def tdNoSecondary : TitleData :=
  { title := some "Game", release_date := none, countries := none, sites := none,
    languages := none, companies := none, top_cast := none, nominations := none,
    awards := none, genres := none, parent_c_url := none, ratings_url := none,
    images_url := none }

/-- Counterexample to claim C1 as stated: a Job whose primary scrape
yields a usable field but no ratings URL and no parental-guide URL
appends no row at all; `scrape_title` aborts with a `TypeError` when
the row construction subscripts the still-`None` secondary results. -/
theorem C1_counterexample :
    (scrape_title (fun _ => TitleResp.ok tdNoSecondary)
      (fun _ => RatingsResp.err (.timeout "t"))
      (fun _ => ParentsResp.err (.timeout "t")) "u" "1" []).data = [] ∧
    (scrape_title (fun _ => TitleResp.ok tdNoSecondary)
      (fun _ => RatingsResp.err (.timeout "t"))
      (fun _ => ParentsResp.err (.timeout "t")) "u" "1" []).err =
      some "TypeError: NoneType object is not subscriptable" :=
  ⟨rfl, rfl⟩

/-- A title-page extraction with one usable field and both secondary
URLs present. -/
def tdWithSecondary : TitleData :=
  { title := some "Game", release_date := none, countries := none, sites := none,
    languages := none, companies := none, top_cast := none, nominations := none,
    awards := none, genres := none, parent_c_url := some "p", ratings_url := some "r",
    images_url := none }

/-- Witness for C1 (amended): both secondary fetches time out or fail,
yet exactly one row is appended, with missing markers only in the
secondary sub-fields. -/
theorem C1_witness :
    scrape_title (fun _ => TitleResp.ok tdWithSecondary)
      (fun _ => RatingsResp.err (.timeout "t"))
      (fun _ => ParentsResp.err (.wderr "w")) "u" "1" [] =
      ⟨[{ title := some "Game", ranking := "1", release_date := none,
          countries := none, sites := none, languages := none, companies := none,
          top_cast := none, nominations := none, awards := none, genres := none,
          parental_guide := none, rating := none, user_ratings := none,
          imdb_url := "u" }], none⟩ :=
  C1_attempted_secondary_failure_keeps_row (fun _ => TitleResp.ok tdWithSecondary)
    (fun _ => RatingsResp.err (.timeout "t")) (fun _ => ParentsResp.err (.wderr "w"))
    "u" "1" [] "r" "p" (.timeout "t") (.wderr "w")
    (by decide) rfl (by decide) rfl (by decide) rfl rfl
